import Mathlib

/-!
Shallow embedding of the stock-screening scripts `stock-filter.py`
(cloud-penetration variant, called v1 below) and
`stock-allimi/stock-filter-1.py` (strict-below-cloud variant, v2).

Numbers are modelled as rationals; pandas NaN (the unfilled-window
sentinel) is `none : Option ℚ`, a series is a `List (Option ℚ)`.
Python float comparisons involving NaN are all false, which the
`py*` comparison functions reproduce.  A fallible computation
(IndexError, KeyError, a raised exception) is an outer `Option`.
-/

namespace StockFilter

/-- One daily OHLCV bar. -/
structure Bar where
  high : ℚ
  low : ℚ
  close : ℚ
  volume : ℚ
deriving DecidableEq, Repr

/-- A pandas series: one `Option ℚ` per row, `none` being NaN. -/
abbrev Series := List (Option ℚ)

/-- A DataFrame: the OHLCV rows plus any extra (indicator) columns that
were assigned with `df[name] = series`. -/
structure DF where
  rows : List Bar
  extra : List (String × Series)
deriving DecidableEq, Repr

namespace DF

def len (df : DF) : Nat := df.rows.length

def high (df : DF) : List ℚ := df.rows.map Bar.high
def low (df : DF) : List ℚ := df.rows.map Bar.low
def close (df : DF) : List ℚ := df.rows.map Bar.close
def volume (df : DF) : List ℚ := df.rows.map Bar.volume

end DF

/-! ### Python / pandas primitives -/

/-- Python `a < b` on floats: false when either side is NaN. -/
def pyLt (a b : Option ℚ) : Bool :=
  match a, b with
  | some a, some b => decide (a < b)
  | _, _ => false

/-- Python `a <= b` on floats: false when either side is NaN. -/
def pyLe (a b : Option ℚ) : Bool :=
  match a, b with
  | some a, some b => decide (a ≤ b)
  | _, _ => false

/-- Python `a > b` on floats: false when either side is NaN. -/
def pyGt (a b : Option ℚ) : Bool :=
  match a, b with
  | some a, some b => decide (a > b)
  | _, _ => false

/-- Python `a >= b` on floats: false when either side is NaN. -/
def pyGe (a b : Option ℚ) : Bool :=
  match a, b with
  | some a, some b => decide (a ≥ b)
  | _, _ => false

/-- Python builtin `max(a, b)`: returns `b` if `b > a` else `a`
(so `max(nan, x) = nan` and `max(x, nan) = x`). -/
def pyMax (a b : Option ℚ) : Option ℚ := if pyGt b a then b else a

/-- Python builtin `min(a, b)`: returns `b` if `b < a` else `a`. -/
def pyMin (a b : Option ℚ) : Option ℚ := if pyLt b a then b else a

/-- `pd.isna`. -/
def pdIsna (a : Option ℚ) : Bool := a.isNone

/-- The rolling window of width `w` ending at row `i`:
rows `i+1-w … i` of the list. -/
def window (xs : List ℚ) (i w : Nat) : List ℚ := (xs.drop (i + 1 - w)).take w

/-- `series.rolling(w).agg f`: at each row `i`, `f` of the trailing
`w`-window once `w` rows exist, NaN before that. -/
def rollingApply (f : List ℚ → ℚ) (w : Nat) (xs : List ℚ) : Series :=
  (List.range xs.length).map fun i =>
    if i + 1 < w then none else some (f (window xs i w))

/-- Maximum of a list of rationals (0 for the empty list, which no
rolling window ever is). -/
def listMax1 : List ℚ → ℚ
  | [] => 0
  | a :: t => t.foldl max a

/-- Minimum of a list of rationals (0 for the empty list). -/
def listMin1 : List ℚ → ℚ
  | [] => 0
  | a :: t => t.foldl min a

/-- `series.rolling(w).max()`. -/
def rollingMax (w : Nat) (xs : List ℚ) : Series := rollingApply listMax1 w xs

/-- `series.rolling(w).min()`. -/
def rollingMin (w : Nat) (xs : List ℚ) : Series := rollingApply listMin1 w xs

/-- `series.rolling(w).mean()`. -/
def rollingMean (w : Nat) (xs : List ℚ) : Series :=
  rollingApply (fun l => l.sum / (w : ℚ)) w xs

/-- Addition of two possibly-NaN values; NaN propagates. -/
def optAdd (a b : Option ℚ) : Option ℚ :=
  match a, b with
  | some a, some b => some (a + b)
  | _, _ => none

/-- Elementwise `+` of two aligned series; NaN propagates. -/
def seriesAdd (s t : Series) : Series := s.zipWith optAdd t

/-- Elementwise division of a series by a constant; NaN propagates. -/
def seriesDivC (s : Series) (c : ℚ) : Series := s.map (Option.map (· / c))

/-- `series.shift(k)` (forward displacement): row `i` of the result is
row `i−k` of the input, NaN for the first `k` rows; length preserved. -/
def shiftF (k : Nat) (s : Series) : Series :=
  (List.replicate k (none : Option ℚ) ++ s).take s.length

/-- `series.shift(-k)` (backward displacement): row `i` of the result is
row `i+k` of the input, NaN for the last `k` rows; length preserved. -/
def shiftB (k : Nat) (s : Series) : Series :=
  s.drop k ++ List.replicate (min k s.length) (none : Option ℚ)

/-- `series.tail(k)`: the last `min k len` rows. -/
def tail (k : Nat) (xs : List ℚ) : List ℚ := xs.drop (xs.length - k)

/-- `series.mean()` on a NaN-free series: NaN when empty. -/
def seriesMean (xs : List ℚ) : Option ℚ :=
  if xs.length = 0 then none else some (xs.sum / (xs.length : ℚ))

/-- `series.max()` on a NaN-free series: NaN when empty. -/
def seriesMax (xs : List ℚ) : Option ℚ :=
  match xs with
  | [] => none
  | a :: t => some (t.foldl max a)

/-- Read row `i` of a series (in-range reads only; callers guard). -/
def readAt (s : Series) (i : Nat) : Option ℚ := s.getD i none

/-- Resolve a (possibly negative, Python-style) `iloc` index; `none` is
an IndexError. -/
def ilocIdx (n : Nat) (i : Int) : Option Nat :=
  let j : Int := if i < 0 then (n : Int) + i else i
  if 0 ≤ j ∧ j < (n : Int) then some j.toNat else none

/-- `series.iloc[i]`: outer `none` is an IndexError, the inner
`Option ℚ` is the (possibly NaN) value. -/
def iloc (s : Series) (i : Int) : Option (Option ℚ) :=
  (ilocIdx s.length i).map fun j => readAt s j

/-- `df[name] = series`: replace the column if present, else append it. -/
def setCol (extra : List (String × Series)) (name : String) (s : Series) :
    List (String × Series) :=
  if extra.any (fun p => p.1 = name) then
    extra.map (fun p => if p.1 = name then (name, s) else p)
  else extra ++ [(name, s)]

/-- `df[name]` for an extra column: `none` is a KeyError. -/
def getCol (df : DF) (name : String) : Option Series :=
  (df.extra.find? (fun p => p.1 = name)).map Prod.snd

/-! ### Ichimoku, cloud-penetration variant (`stock-filter.py`)

`calculate_ichimoku` there computes the conversion and base lines, the
two leading spans forward-shifted by 26, and the lagging span, and
assigns them as columns `ISA_9 … ILS_26` of the DataFrame it was passed
(`df['ISA_9'] = conversion` mutates in place; the caller's name aliases
the returned frame).  Modelled as returning the updated frame. -/

/-- Undisplaced conversion line: 9-period high/low midpoint. -/
def conversionLine (df : DF) : Series :=
  seriesDivC (seriesAdd (rollingMax 9 df.high) (rollingMin 9 df.low)) 2

/-- Undisplaced base line: 26-period high/low midpoint. -/
def baseLine (df : DF) : Series :=
  seriesDivC (seriesAdd (rollingMax 26 df.high) (rollingMin 26 df.low)) 2

/-- Undisplaced leading span 1: midpoint of conversion and base lines. -/
def span1U (df : DF) : Series :=
  seriesDivC (seriesAdd (conversionLine df) (baseLine df)) 2

/-- Undisplaced leading span 2: 52-period high/low midpoint. -/
def span2U (df : DF) : Series :=
  seriesDivC (seriesAdd (rollingMax 52 df.high) (rollingMin 52 df.low)) 2

/-- `calculate_ichimoku` of `stock-filter.py` (cloud-penetration
variant): writes the five indicator columns into the frame, the leading
spans shifted forward by 26. -/
def calculateIchimokuV1 (df : DF) : DF :=
  let conversion := conversionLine df
  let base := baseLine df
  let span1 := shiftF 26 (span1U df)
  let span2 := shiftF 26 (span2U df)
  let lagging := shiftB 26 (df.close.map some)
  { rows := df.rows
    extra :=
      setCol (setCol (setCol (setCol (setCol df.extra
        "ISA_9" conversion) "ISB_26" base) "ITS_26" span1)
        "IKS_52" span2) "ILS_26" lagging }

/-! ### Ichimoku, strict-below-cloud variant
(`stock-allimi/stock-filter-1.py`)

That `calculate_ichimoku` returns a dict of four undisplaced series and
leaves the frame untouched. -/

/-- The dict returned by the strict variant's `calculate_ichimoku`. -/
structure IchimokuDict where
  conversion_line : Series
  base_line : Series
  leading_span1 : Series
  leading_span2 : Series
deriving DecidableEq, Repr

/-- `calculate_ichimoku` of `stock-allimi/stock-filter-1.py`: the four
undisplaced series, no frame mutation. -/
def calculateIchimokuV2 (df : DF) : IchimokuDict :=
  { conversion_line := conversionLine df
    base_line := baseLine df
    leading_span1 := span1U df
    leading_span2 := span2U df }

/-! ### Golden-cross scan (identical loop in both variants) -/

/-- The golden-cross loop
`for i in range(len(df) - 7, len(df) - 1): if ma5[i] <= ma20[i] and
ma5[i+1] > ma20[i+1]`, with `ma5`/`ma20` the 5- and 20-period rolling
means of the close.  `List.range' (n-7) 6` is Python's
`range(n-7, n-1)` whenever `n ≥ 8` (both variants guard `n ≥ 60`). -/
def goldenCrossFound (close : List ℚ) : Bool :=
  let n := close.length
  let ma5 := rollingMean 5 close
  let ma20 := rollingMean 20 close
  (List.range' (n - 7) 6).any fun i =>
    pyLe (readAt ma5 i) (readAt ma20 i) &&
    pyGt (readAt ma5 (i + 1)) (readAt ma20 (i + 1))

/-! ### Condition evaluators -/

/-- `check_conditions` of `stock-filter.py` (cloud-penetration variant).
Outer `none` is an uncaught exception; the `try` block catches exactly
`KeyError` (a missing column). -/
def checkConditionsV1 (df0 : DF) : Option Bool :=
  if df0.len < 60 then some false
  else
    let vol := tail 90 df0.volume
    if pyGe (seriesMean vol) (some 1000000) then some false
    else if pyLt (seriesMax vol) (some 1000000) then some false
    else
      let df := calculateIchimokuV1 df0
      match getCol df "ITS_26", getCol df "IKS_52",
            getCol df "ISA_9", getCol df "ISB_26" with
      | some its, some iks, some isa, some isb =>
        match iloc its (-1), iloc iks (-1),
              iloc (df.close.map some) (-1),
              iloc isa (-1), iloc isb (-1) with
        | some s1, some s2, some cl, some a, some b =>
          let cloudTop := pyMax s1 s2
          let cloudBottom := pyMin s1 s2
          let cloudThreshold := Option.map (· * (95 / 100 : ℚ)) cloudBottom
          if pyLt cl cloudThreshold || pyGt cl cloudTop then some false
          else if pyLe a b then some false
          else some (goldenCrossFound df.close)
        | _, _, _, _, _ => none
      | _, _, _, _ => some false

/-- `check_conditions` of `stock-allimi/stock-filter-1.py`
(strict-below-cloud variant).  Outer `none` is an uncaught exception. -/
def checkConditionsV2 (df : DF) : Option Bool :=
  if df.len < 78 then some false
  else
    let vol := tail 90 df.volume
    if pyGe (seriesMean vol) (some 1000000) then some false
    else if pyLt (seriesMax vol) (some 1000000) then some false
    else if !goldenCrossFound df.close then some false
    else
      let ich := calculateIchimokuV2 df
      match iloc (df.close.map some) (-1),
            iloc ich.leading_span1 (-26), iloc ich.leading_span2 (-26) with
      | some cp, some s1, some s2 =>
        if pdIsna s1 || pdIsna s2 then some false
        else
          let isNegativeCloud := pyLt s1 s2
          if !isNegativeCloud then some false
          else
            let cloudBottom := pyMin s1 s2
            if pyGe cp cloudBottom then some false else some true
      | _, _, _ => none

/-! ### Batch runner (`stock-filter.py`, `analyze_stock` / `run_filter`)

The per-instrument OHLCV fetch (`fdr.DataReader`) is the external
collaborator: it is a parameter `fetch`, with `none` meaning the fetch
raised.  `analyze_stock` wraps its whole body in
`try … except Exception: return None`; the body is modelled as
`Option (Option Match)` whose outer `none` is a raised exception and
whose inner value is the function's return. -/

/-- One instrument of the universe: `{code, name}`. -/
structure StockInfo where
  code : String
  name : String
deriving DecidableEq, Repr

/-- A match: `(name, code, closing price)` as returned by `analyze_stock`. -/
abbrev StockMatch := String × String × ℚ

/-- The `try`-block body of `analyze_stock` (cloud-penetration variant):
fetch, the volume prechecks, `check_conditions`, and the close read.
Outer `none` is a raised exception. -/
def analyzeStockBody (fetch : StockInfo → Option DF) (s : StockInfo) :
    Option (Option StockMatch) :=
  match fetch s with
  | none => none
  | some df =>
    if pyGe (seriesMean (tail 90 df.volume)) (some 1000000) then some none
    else if pyLt (seriesMax (tail 90 df.volume)) (some 1000000) then some none
    else
      match checkConditionsV1 df with
      | none => none
      | some false => some none
      | some true =>
        match iloc (df.close.map some) (-1) with
        | some (some c) => some (some (s.name, s.code, c))
        | _ => none

/-- `analyze_stock`: the body with every raised exception converted to
"no match" by the catch-all handler. -/
def analyzeStock (fetch : StockInfo → Option DF) (s : StockInfo) : Option StockMatch :=
  match analyzeStockBody fetch s with
  | none => none
  | some r => r

/-- `run_filter` restricted to a given universe: submit every instrument,
collect the non-`None` results.  (The thread pool's completion order is
not modelled; the collection is in submission order.) -/
def runFilter (fetch : StockInfo → Option DF) (stocks : List StockInfo) :
    List StockMatch :=
  (stocks.map (analyzeStock fetch)).filterMap id

/-! ### RSI (modelled from the spec)

Modelled from the spec: no `rsi` survives under `src/` — both variants
removed their RSI predicate (`stock-filter.py` keeps only the comment
"RSI 조건 제거됨") — so the indicator library's `rsi(series, period=14)`
is reconstructed from §4.1 of the spec: bar-to-bar differences, `gain` =
simple rolling mean of the positive differences, `loss` = simple rolling
mean of the magnitudes of the negative differences,
`rsi = 100 − 100/(1 + gain/loss)`, and RSI defined as 100 when `loss`
is zero over the window. -/

/-- Sum of a NaN-able series; NaN propagates. -/
def optSum : List (Option ℚ) → Option ℚ
  | [] => some 0
  | a :: t => optAdd a (optSum t)

/-- The rolling window of width `w` ending at row `i` of a NaN-able
series. -/
def windowS (s : Series) (i w : Nat) : Series := (s.drop (i + 1 - w)).take w

/-- Rolling mean of width `w` over a NaN-able series: NaN before `w`
rows exist and whenever the window contains a NaN. -/
def rollingMeanS (w : Nat) (s : Series) : Series :=
  (List.range s.length).map fun i =>
    if i + 1 < w then none else (optSum (windowS s i w)).map (· / (w : ℚ))

/-- Modelled from the spec (§4.1): bar-to-bar differences of a price
series, undefined at the first bar. -/
def priceDiff (xs : List ℚ) : Series :=
  (List.range xs.length).map fun i =>
    if i = 0 then none else some (xs.getD i 0 - xs.getD (i - 1) 0)

/-- Modelled from the spec (§4.1): `rsi(series, period)`, with the
documented edge policy `rsi = 100` when `loss` is zero over the window. -/
def rsi (xs : List ℚ) (period : Nat) : Series :=
  let diff := priceDiff xs
  let gain := rollingMeanS period (diff.map (Option.map fun d => max d 0))
  let loss := rollingMeanS period (diff.map (Option.map fun d => max (-d) 0))
  gain.zipWith (fun g l =>
    match g, l with
    | some g, some l => some (if l = 0 then 100 else 100 - 100 / (1 + g / l))
    | _, _ => none) loss

/-! ### Concrete inputs used by the counterexamples and witnesses -/

def mkBar (h l c v : ℚ) : Bar := ⟨h, l, c, v⟩

/-- A 60-bar series accepted by the cloud-penetration evaluator although
its 52-period leading span is still the NaN sentinel at the last bar
(78 bars would be needed): flat early cloud, a dip and recovery that
places a golden cross at index 56, close inside the degenerate cloud. -/
def demoRows : List Bar :=
  List.replicate 34 (mkBar 12 8 10 100000) ++
  List.replicate 16 (mkBar 10 6 10 100000) ++
  [mkBar 10 6 8 100000] ++
  List.replicate 5 (mkBar 12 9 8 100000) ++
  List.replicate 3 (mkBar 12 9 13 100000) ++
  [mkBar 12 9 (48 / 5) 1000000]

def demoDF : DF := ⟨demoRows, []⟩

/-- A second 60-bar series of the same shape (volume burst one bar
earlier, different final close) also accepted with the 52-period span
undefined. -/
def demo3Rows : List Bar :=
  List.replicate 34 (mkBar 12 8 10 100000) ++
  List.replicate 16 (mkBar 10 6 10 100000) ++
  [mkBar 10 6 8 100000] ++
  List.replicate 5 (mkBar 12 9 8 100000) ++
  List.replicate 2 (mkBar 12 9 13 100000) ++
  [mkBar 12 9 13 1000000] ++
  [mkBar 12 9 (97 / 10) 100000]

def demo3DF : DF := ⟨demo3Rows, []⟩

/-- 78 bars, flat except a high spike at bar 52: the undisplaced spans
at `iloc[-26]` (index 52, windows containing the spike) and the
forward-shifted spans at the last bar (undisplaced index 51, windows
ending just before the spike) are both defined and differ. -/
def c1DF : DF :=
  ⟨List.replicate 52 (mkBar 12 8 10 1) ++ [mkBar 100 8 10 1] ++
    List.replicate 25 (mkBar 12 8 10 1), []⟩

/-- 60 closes with a golden cross at index 55 (inside the scanned
window `[53, 58]`). -/
def gcInsideClose : List ℚ :=
  List.replicate 49 10 ++ List.replicate 7 4 ++ List.replicate 4 30

/-- 60 closes with the same cross moved to index 52 = len − 8 (outside
the scanned window). -/
def gcOutsideClose : List ℚ :=
  List.replicate 46 10 ++ List.replicate 7 4 ++ List.replicate 7 30

/-- 90 volumes with mean 900,000 and max 1,500,000. -/
def vol1 : List ℚ := List.replicate 88 900000 ++ [300000, 1500000]

/-- 90 volumes with mean 1,100,000. -/
def vol2 : List ℚ := List.replicate 90 1100000

/-- 90 volumes with mean 500,000 and max 800,000. -/
def vol3 : List ℚ := List.replicate 88 500000 ++ [200000, 800000]

/-- One flat bar: input for the frame-effect counterexample. -/
def c8DF : DF := ⟨[mkBar 1 1 1 1], []⟩

/-- A 95-bar flat frame for the trailing-window witness. -/
def demo10DF : DF := ⟨List.replicate 95 (mkBar 2 1 1 1), []⟩

/-- A strictly increasing 16-bar price series for the RSI witness. -/
def rsiClose : List ℚ := (List.range 16).map (fun n => (n : ℚ))

def stockA : StockInfo := ⟨"A", "Alpha"⟩
def stockB : StockInfo := ⟨"B", "Beta"⟩
def stockC : StockInfo := ⟨"C", "Gamma"⟩

/-- A fetch collaborator for which instrument B's fetch raises and the
other two return the demo series. -/
def fetch3 : StockInfo → Option DF := fun s =>
  if s.code = "A" then some demoDF
  else if s.code = "C" then some demoDF
  else none

/-- The frame restricted to all but its first `k` bars. -/
def dropDF (k : Nat) (df : DF) : DF := ⟨df.rows.drop k, df.extra⟩

/-- The volume-regime screen shared by both variants: not excluded by
`three_month_avg >= 1_000_000` nor by `three_month_max < 1_000_000`. -/
def volumeRegime (vol : List ℚ) : Bool :=
  !pyGe (seriesMean (tail 90 vol)) (some 1000000) &&
  !pyLt (seriesMax (tail 90 vol)) (some 1000000)

/-- The cloud screen of the cloud-penetration variant, reading the
forward-shifted spans at the last bar. -/
def cloudOkV1 (df : DF) : Bool :=
  let s1 := readAt (shiftF 26 (span1U df)) (df.len - 1)
  let s2 := readAt (shiftF 26 (span2U df)) (df.len - 1)
  let cl := readAt (df.close.map some) (df.len - 1)
  !(pyLt cl (Option.map (· * (95 / 100 : ℚ)) (pyMin s1 s2)) || pyGt cl (pyMax s1 s2))

/-- The trend screen of the cloud-penetration variant: conversion line
strictly above base line at the last bar. -/
def trendOkV1 (df : DF) : Bool :=
  !pyLe (readAt (conversionLine df) (df.len - 1)) (readAt (baseLine df) (df.len - 1))

/-- The cloud screen of the strict-below-cloud variant, reading the
undisplaced spans 26 bars before the last bar. -/
def cloudOkV2 (df : DF) : Bool :=
  let s1 := readAt (span1U df) (df.len - 26)
  let s2 := readAt (span2U df) (df.len - 26)
  !(pdIsna s1 || pdIsna s2) && pyLt s1 s2 &&
  !pyGe (readAt (df.close.map some) (df.len - 1)) (pyMin s1 s2)

/-! ### Pointwise characterization of the series operations -/

theorem readAt_eq_getElem (s : Series) (i : Nat) : readAt s i = (s[i]?).getD none := by
  simp [readAt, List.getD_eq_getElem?_getD]

theorem readAt_of_ge (s : Series) (i : Nat) (h : s.length ≤ i) : readAt s i = none := by
  rw [readAt_eq_getElem, List.getElem?_eq_none h, Option.getD_none]

theorem length_rollingApply (f : List ℚ → ℚ) (w : Nat) (xs : List ℚ) :
    (rollingApply f w xs).length = xs.length := by
  simp [rollingApply]

theorem readAt_rollingApply (f : List ℚ → ℚ) (w : Nat) (xs : List ℚ) (i : Nat)
    (hi : i < xs.length) :
    readAt (rollingApply f w xs) i =
      if i + 1 < w then none else some (f (window xs i w)) := by
  rw [readAt_eq_getElem, rollingApply, List.getElem?_map, List.getElem?_range hi]
  rfl

theorem readAt_map_some (xs : List ℚ) (i : Nat) : readAt (xs.map some) i = xs[i]? := by
  rw [readAt_eq_getElem, List.getElem?_map]
  cases xs[i]? <;> rfl

theorem length_seriesAdd (s t : Series) : (seriesAdd s t).length = min s.length t.length := by
  simp [seriesAdd]

theorem readAt_seriesAdd (s t : Series) (i : Nat) (h : s.length = t.length) :
    readAt (seriesAdd s t) i = optAdd (readAt s i) (readAt t i) := by
  by_cases hi : i < s.length
  · rw [readAt_eq_getElem, readAt_eq_getElem, readAt_eq_getElem, seriesAdd,
      List.getElem?_zipWith]
    have h2 : i < t.length := h ▸ hi
    rw [List.getElem?_eq_getElem hi, List.getElem?_eq_getElem h2]
    rfl
  · push_neg at hi
    rw [readAt_of_ge s i hi, readAt_of_ge t i (h ▸ hi), readAt_of_ge]
    · rfl
    · rw [length_seriesAdd]; omega

theorem length_seriesDivC (s : Series) (c : ℚ) : (seriesDivC s c).length = s.length := by
  simp [seriesDivC]

theorem readAt_seriesDivC (s : Series) (c : ℚ) (i : Nat) :
    readAt (seriesDivC s c) i = (readAt s i).map (· / c) := by
  rw [readAt_eq_getElem, readAt_eq_getElem, seriesDivC, List.getElem?_map]
  cases s[i]? <;> rfl

theorem length_shiftF (k : Nat) (s : Series) : (shiftF k s).length = s.length := by
  simp [shiftF]

theorem readAt_shiftF (k : Nat) (s : Series) (i : Nat) (hi : i < s.length) :
    readAt (shiftF k s) i = if i < k then none else readAt s (i - k) := by
  rw [readAt_eq_getElem, shiftF, List.getElem?_take_of_lt hi]
  by_cases h : i < k
  · rw [if_pos h, List.getElem?_append_left (by simpa using h)]
    simp [List.getElem?_replicate, h]
  · rw [if_neg h, List.getElem?_append_right (by simpa using Nat.le_of_not_lt h),
      List.length_replicate, readAt_eq_getElem]

theorem length_conversionLine (df : DF) : (conversionLine df).length = df.len := by
  simp [conversionLine, length_seriesDivC, length_seriesAdd, rollingMax, rollingMin,
    length_rollingApply, DF.high, DF.low, DF.len]

theorem length_baseLine (df : DF) : (baseLine df).length = df.len := by
  simp [baseLine, length_seriesDivC, length_seriesAdd, rollingMax, rollingMin,
    length_rollingApply, DF.high, DF.low, DF.len]

theorem length_span1U (df : DF) : (span1U df).length = df.len := by
  simp [span1U, length_seriesDivC, length_seriesAdd, length_conversionLine, length_baseLine]

theorem length_span2U (df : DF) : (span2U df).length = df.len := by
  simp [span2U, length_seriesDivC, length_seriesAdd, rollingMax, rollingMin,
    length_rollingApply, DF.high, DF.low, DF.len]

theorem ilocIdx_neg (n k : Nat) (h1 : 1 ≤ k) (h2 : k ≤ n) :
    ilocIdx n (-(k : Int)) = some (n - k) := by
  have hlt : -(k : Int) < 0 := by omega
  rw [ilocIdx, if_pos hlt]
  rw [if_pos (by omega)]
  congr 1
  omega

theorem iloc_neg (s : Series) (k : Nat) (h1 : 1 ≤ k) (h2 : k ≤ s.length) :
    iloc s (-(k : Int)) = some (readAt s (s.length - k)) := by
  rw [iloc, ilocIdx_neg s.length k h1 h2, Option.map_some']

/-! ### Dropping a prefix of the bars does not change trailing reads -/

theorem len_dropDF (k : Nat) (df : DF) : (dropDF k df).len = df.len - k := by
  simp [dropDF, DF.len]

theorem high_dropDF (k : Nat) (df : DF) : (dropDF k df).high = df.high.drop k := by
  simp [dropDF, DF.high]

theorem low_dropDF (k : Nat) (df : DF) : (dropDF k df).low = df.low.drop k := by
  simp [dropDF, DF.low]

theorem close_dropDF (k : Nat) (df : DF) : (dropDF k df).close = df.close.drop k := by
  simp [dropDF, DF.close]

theorem volume_dropDF (k : Nat) (df : DF) : (dropDF k df).volume = df.volume.drop k := by
  simp [dropDF, DF.volume]

theorem window_drop (xs : List ℚ) (k i w : Nat) (hw : 1 ≤ w) (h : k + w ≤ i + 1) :
    window (xs.drop k) (i - k) w = window xs i w := by
  rw [window, window, List.drop_drop]
  congr 2
  omega

theorem readAt_rollingApply_drop (f : List ℚ → ℚ) (w k : Nat) (xs : List ℚ) (i : Nat)
    (hw : 1 ≤ w) (h : k + w ≤ i + 1) (hi : i < xs.length) :
    readAt (rollingApply f w (xs.drop k)) (i - k) = readAt (rollingApply f w xs) i := by
  have hik : i - k < (xs.drop k).length := by simp [List.length_drop]; omega
  rw [readAt_rollingApply f w _ _ hik, readAt_rollingApply f w _ _ hi,
    if_neg (by omega), if_neg (by omega), window_drop xs k i w hw h]

theorem length_high (df : DF) : df.high.length = df.len := by simp [DF.high, DF.len]

theorem length_low (df : DF) : df.low.length = df.len := by simp [DF.low, DF.len]

theorem length_close (df : DF) : df.close.length = df.len := by simp [DF.close, DF.len]

theorem length_volume (df : DF) : df.volume.length = df.len := by simp [DF.volume, DF.len]

theorem readAt_conversionLine_drop (df : DF) (k i : Nat) (h : k + 9 ≤ i + 1)
    (hi : i < df.len) :
    readAt (conversionLine (dropDF k df)) (i - k) = readAt (conversionLine df) i := by
  rw [conversionLine, conversionLine, high_dropDF, low_dropDF,
    readAt_seriesDivC, readAt_seriesDivC,
    readAt_seriesAdd _ _ _ (by simp [rollingMax, rollingMin, length_rollingApply,
      length_high, length_low]),
    readAt_seriesAdd _ _ _ (by simp [rollingMax, rollingMin, length_rollingApply,
      length_high, length_low]),
    rollingMax, rollingMin,
    readAt_rollingApply_drop _ 9 k _ i (by omega) h (by rw [length_high]; omega),
    readAt_rollingApply_drop _ 9 k _ i (by omega) h (by rw [length_low]; omega)]
  rfl

theorem readAt_baseLine_drop (df : DF) (k i : Nat) (h : k + 26 ≤ i + 1)
    (hi : i < df.len) :
    readAt (baseLine (dropDF k df)) (i - k) = readAt (baseLine df) i := by
  rw [baseLine, baseLine, high_dropDF, low_dropDF,
    readAt_seriesDivC, readAt_seriesDivC,
    readAt_seriesAdd _ _ _ (by simp [rollingMax, rollingMin, length_rollingApply,
      length_high, length_low]),
    readAt_seriesAdd _ _ _ (by simp [rollingMax, rollingMin, length_rollingApply,
      length_high, length_low]),
    rollingMax, rollingMin,
    readAt_rollingApply_drop _ 26 k _ i (by omega) h (by rw [length_high]; omega),
    readAt_rollingApply_drop _ 26 k _ i (by omega) h (by rw [length_low]; omega)]
  rfl

theorem readAt_span1U_drop (df : DF) (k i : Nat) (h : k + 26 ≤ i + 1)
    (hi : i < df.len) :
    readAt (span1U (dropDF k df)) (i - k) = readAt (span1U df) i := by
  rw [span1U, span1U,
    readAt_seriesDivC, readAt_seriesDivC,
    readAt_seriesAdd _ _ _ (by rw [length_conversionLine, length_baseLine]),
    readAt_seriesAdd _ _ _ (by rw [length_conversionLine, length_baseLine]),
    readAt_conversionLine_drop df k i (by omega) hi,
    readAt_baseLine_drop df k i h hi]

theorem readAt_span2U_drop (df : DF) (k i : Nat) (h : k + 52 ≤ i + 1)
    (hi : i < df.len) :
    readAt (span2U (dropDF k df)) (i - k) = readAt (span2U df) i := by
  rw [span2U, span2U, high_dropDF, low_dropDF,
    readAt_seriesDivC, readAt_seriesDivC,
    readAt_seriesAdd _ _ _ (by simp [rollingMax, rollingMin, length_rollingApply,
      length_high, length_low]),
    readAt_seriesAdd _ _ _ (by simp [rollingMax, rollingMin, length_rollingApply,
      length_high, length_low]),
    rollingMax, rollingMin,
    readAt_rollingApply_drop _ 52 k _ i (by omega) h (by rw [length_high]; omega),
    readAt_rollingApply_drop _ 52 k _ i (by omega) h (by rw [length_low]; omega)]
  rfl

theorem readAt_rollingMean (w : Nat) (xs : List ℚ) (i : Nat) (hw : w ≤ i + 1)
    (hi : i < xs.length) :
    readAt (rollingMean w xs) i = some ((window xs i w).sum / (w : ℚ)) := by
  rw [rollingMean, readAt_rollingApply _ w xs i hi, if_neg (by omega)]

/-- The per-index golden-cross test is unchanged by dropping a prefix
that leaves the 20-bar windows at `i` and `i+1` intact. -/
theorem gcTest_drop (xs : List ℚ) (k i : Nat) (h : k + 20 ≤ i + 1)
    (hi : i + 1 < xs.length) :
    (pyLe (readAt (rollingMean 5 (xs.drop k)) (i - k))
        (readAt (rollingMean 20 (xs.drop k)) (i - k)) &&
      pyGt (readAt (rollingMean 5 (xs.drop k)) (i - k + 1))
        (readAt (rollingMean 20 (xs.drop k)) (i - k + 1)))
    = (pyLe (readAt (rollingMean 5 xs) i) (readAt (rollingMean 20 xs) i) &&
      pyGt (readAt (rollingMean 5 xs) (i + 1)) (readAt (rollingMean 20 xs) (i + 1))) := by
  have e1 : i - k + 1 = i + 1 - k := by omega
  rw [rollingMean, rollingMean, e1,
    readAt_rollingApply_drop _ 5 k xs i (by omega) (by omega) (by omega),
    readAt_rollingApply_drop _ 20 k xs i (by omega) (by omega) (by omega),
    readAt_rollingApply_drop _ 5 k xs (i + 1) (by omega) (by omega) hi,
    readAt_rollingApply_drop _ 20 k xs (i + 1) (by omega) (by omega) hi]
  rfl

theorem goldenCrossFound_drop (xs : List ℚ) (k : Nat) (h : k + 27 ≤ xs.length) :
    goldenCrossFound (xs.drop k) = goldenCrossFound xs := by
  unfold goldenCrossFound
  rw [List.length_drop]
  rw [Bool.eq_iff_iff, List.any_eq_true, List.any_eq_true]
  constructor
  · rintro ⟨x, hx, hP⟩
    rw [List.mem_range'] at hx
    obtain ⟨j, hj, hx⟩ := hx
    refine ⟨xs.length - 7 + j, List.mem_range'.mpr ⟨j, hj, by omega⟩, ?_⟩
    rw [show x = xs.length - 7 + j - k by omega] at hP
    rw [← gcTest_drop xs k (xs.length - 7 + j) (by omega) (by omega)]
    exact hP
  · rintro ⟨x, hx, hP⟩
    rw [List.mem_range'] at hx
    obtain ⟨j, hj, hx⟩ := hx
    refine ⟨xs.length - k - 7 + j, List.mem_range'.mpr ⟨j, hj, by omega⟩, ?_⟩
    rw [show x = xs.length - 7 + j by omega] at hP
    rw [show xs.length - k - 7 + j = xs.length - 7 + j - k by omega,
      gcTest_drop xs k (xs.length - 7 + j) (by omega) (by omega)]
    exact hP

theorem tail_drop_self (xs : List ℚ) (m : Nat) (h : m ≤ xs.length) :
    tail m (xs.drop (xs.length - m)) = tail m xs := by
  rw [tail, tail, List.length_drop, List.drop_drop]
  congr 1
  omega

/-! ### Column lookup after `setCol` -/

theorem find?_replaceCol (t : List (String × Series)) (name : String) (s : Series)
    (ht : t.any (fun p => p.1 = name)) :
    (t.map (fun p => if p.1 = name then (name, s) else p)).find? (fun p => p.1 = name)
      = some (name, s) := by
  induction t with
  | nil => simp at ht
  | cons p t ih =>
    rw [List.map_cons]
    by_cases hp : p.1 = name
    · rw [if_pos hp]
      exact List.find?_cons_of_pos _ (by simp)
    · rw [if_neg hp, List.find?_cons_of_neg _ (by simpa using hp)]
      refine ih ?_
      rcases List.any_eq_true.mp ht with ⟨q, hq, hqn⟩
      rcases List.mem_cons.mp hq with rfl | hqt
      · exact absurd (of_decide_eq_true hqn) hp
      · exact List.any_eq_true.mpr ⟨q, hqt, hqn⟩

theorem find?_setCol_self (e : List (String × Series)) (name : String) (s : Series) :
    (setCol e name s).find? (fun p => p.1 = name) = some (name, s) := by
  rw [setCol]
  by_cases hany : e.any (fun p => p.1 = name)
  · rw [if_pos hany]
    exact find?_replaceCol e name s hany
  · rw [if_neg hany, List.find?_append]
    have he : e.find? (fun p => p.1 = name) = none := by
      rw [List.find?_eq_none]
      intro q hq hc
      exact hany (List.any_eq_true.mpr ⟨q, hq, hc⟩)
    rw [he, Option.none_or, List.find?_cons_of_pos _ (by simp)]

theorem find?_setCol_other (e : List (String × Series)) (name other : String) (s : Series)
    (h : other ≠ name) :
    (setCol e name s).find? (fun p => p.1 = other) = e.find? (fun p => p.1 = other) := by
  rw [setCol]
  by_cases hany : e.any (fun p => p.1 = name)
  · rw [if_pos hany]
    clear hany
    induction e with
    | nil => rfl
    | cons p t ih =>
      rw [List.map_cons]
      by_cases hp : p.1 = name
      · rw [if_pos hp,
          List.find?_cons_of_neg _ (by simpa using fun hc => h hc.symm),
          List.find?_cons_of_neg _ (by simp [hp]; exact fun hc => h hc.symm)]
        exact ih
      · rw [if_neg hp]
        by_cases hpo : p.1 = other
        · rw [List.find?_cons_of_pos _ (by simpa using hpo),
            List.find?_cons_of_pos _ (by simpa using hpo)]
        · rw [List.find?_cons_of_neg _ (by simpa using hpo),
            List.find?_cons_of_neg _ (by simpa using hpo)]
          exact ih
  · rw [if_neg hany, List.find?_append]
    have h2 : ([((name, s) : String × Series)].find? (fun p => p.1 = other)) = none := by
      rw [List.find?_eq_none]
      intro q hq hc
      rcases List.mem_singleton.mp hq with rfl
      exact h (of_decide_eq_true hc).symm
    rw [h2, Option.or_none]

theorem getColV1_ITS (df : DF) :
    getCol (calculateIchimokuV1 df) "ITS_26" = some (shiftF 26 (span1U df)) := by
  show ((setCol (setCol (setCol (setCol (setCol df.extra
      "ISA_9" (conversionLine df)) "ISB_26" (baseLine df)) "ITS_26" (shiftF 26 (span1U df)))
      "IKS_52" (shiftF 26 (span2U df))) "ILS_26" (shiftB 26 (df.close.map some))).find?
      (fun p => p.1 = "ITS_26")).map Prod.snd = _
  rw [find?_setCol_other _ _ _ _ (by decide), find?_setCol_other _ _ _ _ (by decide),
    find?_setCol_self]
  rfl

theorem getColV1_IKS (df : DF) :
    getCol (calculateIchimokuV1 df) "IKS_52" = some (shiftF 26 (span2U df)) := by
  show ((setCol (setCol (setCol (setCol (setCol df.extra
      "ISA_9" (conversionLine df)) "ISB_26" (baseLine df)) "ITS_26" (shiftF 26 (span1U df)))
      "IKS_52" (shiftF 26 (span2U df))) "ILS_26" (shiftB 26 (df.close.map some))).find?
      (fun p => p.1 = "IKS_52")).map Prod.snd = _
  rw [find?_setCol_other _ _ _ _ (by decide), find?_setCol_self]
  rfl

theorem getColV1_ISA (df : DF) :
    getCol (calculateIchimokuV1 df) "ISA_9" = some (conversionLine df) := by
  show ((setCol (setCol (setCol (setCol (setCol df.extra
      "ISA_9" (conversionLine df)) "ISB_26" (baseLine df)) "ITS_26" (shiftF 26 (span1U df)))
      "IKS_52" (shiftF 26 (span2U df))) "ILS_26" (shiftB 26 (df.close.map some))).find?
      (fun p => p.1 = "ISA_9")).map Prod.snd = _
  rw [find?_setCol_other _ _ _ _ (by decide), find?_setCol_other _ _ _ _ (by decide),
    find?_setCol_other _ _ _ _ (by decide), find?_setCol_other _ _ _ _ (by decide),
    find?_setCol_self]
  rfl

theorem getColV1_ISB (df : DF) :
    getCol (calculateIchimokuV1 df) "ISB_26" = some (baseLine df) := by
  show ((setCol (setCol (setCol (setCol (setCol df.extra
      "ISA_9" (conversionLine df)) "ISB_26" (baseLine df)) "ITS_26" (shiftF 26 (span1U df)))
      "IKS_52" (shiftF 26 (span2U df))) "ILS_26" (shiftB 26 (df.close.map some))).find?
      (fun p => p.1 = "ISB_26")).map Prod.snd = _
  rw [find?_setCol_other _ _ _ _ (by decide), find?_setCol_other _ _ _ _ (by decide),
    find?_setCol_other _ _ _ _ (by decide), find?_setCol_self]
  rfl

theorem close_calculateIchimokuV1 (df : DF) : (calculateIchimokuV1 df).close = df.close := rfl

theorem len_calculateIchimokuV1 (df : DF) : (calculateIchimokuV1 df).len = df.len := rfl

/-! ### Normal forms of the two evaluators, as conjunctions of the
individual screening predicates -/

theorem iloc_neg_one (s : Series) (h : 1 ≤ s.length) :
    iloc s (-1) = some (readAt s (s.length - 1)) := by
  have e : (-1 : Int) = -((1 : Nat) : Int) := by norm_num
  rw [e, iloc_neg s 1 (by omega) h]

theorem iloc_neg_26 (s : Series) (h : 26 ≤ s.length) :
    iloc s (-26) = some (readAt s (s.length - 26)) := by
  have e : (-26 : Int) = -((26 : Nat) : Int) := by norm_num
  rw [e, iloc_neg s 26 (by omega) h]

theorem iloc_neg_27 (s : Series) (h : 27 ≤ s.length) :
    iloc s (-27) = some (readAt s (s.length - 27)) := by
  have e : (-27 : Int) = -((27 : Nat) : Int) := by norm_num
  rw [e, iloc_neg s 27 (by omega) h]

theorem checkConditionsV1_char (df : DF) (h : 60 ≤ df.len) :
    checkConditionsV1 df =
      some (volumeRegime df.volume && (cloudOkV1 df && (trendOkV1 df &&
        goldenCrossFound df.close))) := by
  have i1 : iloc (shiftF 26 (span1U df)) (-1)
      = some (readAt (shiftF 26 (span1U df)) (df.len - 1)) := by
    rw [iloc_neg_one _ (by rw [length_shiftF, length_span1U]; omega), length_shiftF,
      length_span1U]
  have i2 : iloc (shiftF 26 (span2U df)) (-1)
      = some (readAt (shiftF 26 (span2U df)) (df.len - 1)) := by
    rw [iloc_neg_one _ (by rw [length_shiftF, length_span2U]; omega), length_shiftF,
      length_span2U]
  have i3 : iloc (df.close.map some) (-1)
      = some (readAt (df.close.map some) (df.len - 1)) := by
    rw [iloc_neg_one _ (by rw [List.length_map, length_close]; omega), List.length_map,
      length_close]
  have i4 : iloc (conversionLine df) (-1)
      = some (readAt (conversionLine df) (df.len - 1)) := by
    rw [iloc_neg_one _ (by rw [length_conversionLine]; omega), length_conversionLine]
  have i5 : iloc (baseLine df) (-1)
      = some (readAt (baseLine df) (df.len - 1)) := by
    rw [iloc_neg_one _ (by rw [length_baseLine]; omega), length_baseLine]
  rw [checkConditionsV1, if_neg (by omega)]
  simp only [close_calculateIchimokuV1, getColV1_ITS, getColV1_IKS, getColV1_ISA,
    getColV1_ISB, i1, i2, i3, i4, i5]
  split
  · rename_i hv
    simp [volumeRegime, hv]
  · split
    · rename_i hv hm
      simp [volumeRegime, hv, hm]
    · split
      · rename_i hv hm hcl
        simp [volumeRegime, hv, hm, cloudOkV1, hcl]
      · split
        · rename_i hv hm hcl ht
          simp [volumeRegime, hv, hm, cloudOkV1, hcl, trendOkV1, ht]
        · rename_i hv hm hcl ht
          simp [volumeRegime, hv, hm, cloudOkV1, hcl, trendOkV1, ht]

theorem checkConditionsV2_char (df : DF) (h : 78 ≤ df.len) :
    checkConditionsV2 df =
      some (volumeRegime df.volume && (goldenCrossFound df.close && cloudOkV2 df)) := by
  have i3 : iloc (df.close.map some) (-1)
      = some (readAt (df.close.map some) (df.len - 1)) := by
    rw [iloc_neg_one _ (by rw [List.length_map, length_close]; omega), List.length_map,
      length_close]
  have j1 : iloc (span1U df) (-26) = some (readAt (span1U df) (df.len - 26)) := by
    rw [iloc_neg_26 _ (by rw [length_span1U]; omega), length_span1U]
  have j2 : iloc (span2U df) (-26) = some (readAt (span2U df) (df.len - 26)) := by
    rw [iloc_neg_26 _ (by rw [length_span2U]; omega), length_span2U]
  rw [checkConditionsV2, if_neg (by omega)]
  simp only [calculateIchimokuV2, i3, j1, j2]
  split
  · rename_i hv
    simp [volumeRegime, hv]
  · split
    · rename_i hv hm
      simp [volumeRegime, hv, hm]
    · split
      · rename_i hv hm hgc
        simp only [Bool.not_eq_eq_eq_not, Bool.not_true] at hgc
        simp [volumeRegime, hv, hm, hgc]
      · split
        · rename_i hv hm hgc hna
          simp only [Bool.not_eq_eq_eq_not, Bool.not_true] at hgc
          simp [volumeRegime, hv, hm, hgc, cloudOkV2, hna]
        · split
          · rename_i hv hm hgc hna hlt
            simp only [Bool.not_eq_eq_eq_not, Bool.not_true] at hgc
            simp only [Bool.not_eq_eq_eq_not, Bool.not_true] at hlt
            simp [volumeRegime, hv, hm, hgc, cloudOkV2, hna, hlt]
          · split
            · rename_i hv hm hgc hna hlt hge
              simp only [Bool.not_eq_eq_eq_not, Bool.not_true] at hgc hlt
              simp [volumeRegime, hv, hm, hgc, cloudOkV2, hna, hlt, hge]
            · rename_i hv hm hgc hna hlt hge
              simp only [Bool.not_eq_eq_eq_not, Bool.not_true] at hgc hlt
              simp [volumeRegime, hv, hm, hgc, cloudOkV2, hna, hlt, hge]

/-! ### The evaluators depend only on the trailing 90 bars -/

theorem volumeRegime_drop (df : DF) (h : 90 ≤ df.len) :
    volumeRegime ((dropDF (df.len - 90) df).volume) = volumeRegime df.volume := by
  rw [volume_dropDF, show df.len - 90 = df.volume.length - 90 by rw [length_volume],
    volumeRegime, volumeRegime, tail_drop_self df.volume 90 (by rw [length_volume]; omega)]

theorem goldenCross_drop90 (df : DF) (h : 90 ≤ df.len) :
    goldenCrossFound ((dropDF (df.len - 90) df).close) = goldenCrossFound df.close := by
  rw [close_dropDF, show df.len - 90 = df.close.length - 90 by rw [length_close],
    goldenCrossFound_drop df.close _ (by rw [length_close]; omega)]

theorem closeRead_drop (df : DF) (h : 90 ≤ df.len) :
    readAt (((dropDF (df.len - 90) df).close).map some) ((dropDF (df.len - 90) df).len - 1)
      = readAt (df.close.map some) (df.len - 1) := by
  rw [close_dropDF, len_dropDF, readAt_map_some, readAt_map_some, List.getElem?_drop]
  congr 1
  omega

theorem span1Read_dropV1 (df : DF) (h : 90 ≤ df.len) :
    readAt (shiftF 26 (span1U (dropDF (df.len - 90) df))) ((dropDF (df.len - 90) df).len - 1)
      = readAt (shiftF 26 (span1U df)) (df.len - 1) := by
  rw [len_dropDF, show df.len - (df.len - 90) - 1 = 89 by omega,
    readAt_shiftF _ _ _ (by rw [length_span1U, len_dropDF]; omega),
    readAt_shiftF _ _ _ (by rw [length_span1U]; omega),
    if_neg (by omega), if_neg (by omega),
    show (89 : Nat) - 26 = (df.len - 27) - (df.len - 90) by omega,
    readAt_span1U_drop df _ _ (by omega) (by omega)]
  congr 1

theorem span2Read_dropV1 (df : DF) (h : 90 ≤ df.len) :
    readAt (shiftF 26 (span2U (dropDF (df.len - 90) df))) ((dropDF (df.len - 90) df).len - 1)
      = readAt (shiftF 26 (span2U df)) (df.len - 1) := by
  rw [len_dropDF, show df.len - (df.len - 90) - 1 = 89 by omega,
    readAt_shiftF _ _ _ (by rw [length_span2U, len_dropDF]; omega),
    readAt_shiftF _ _ _ (by rw [length_span2U]; omega),
    if_neg (by omega), if_neg (by omega),
    show (89 : Nat) - 26 = (df.len - 27) - (df.len - 90) by omega,
    readAt_span2U_drop df _ _ (by omega) (by omega)]
  congr 1

theorem cloudOkV1_drop (df : DF) (h : 90 ≤ df.len) :
    cloudOkV1 (dropDF (df.len - 90) df) = cloudOkV1 df := by
  simp only [cloudOkV1, span1Read_dropV1 df h, span2Read_dropV1 df h, closeRead_drop df h]

theorem trendOkV1_drop (df : DF) (h : 90 ≤ df.len) :
    trendOkV1 (dropDF (df.len - 90) df) = trendOkV1 df := by
  have r1 : readAt (conversionLine (dropDF (df.len - 90) df))
      ((dropDF (df.len - 90) df).len - 1) = readAt (conversionLine df) (df.len - 1) := by
    rw [len_dropDF, show df.len - (df.len - 90) - 1 = 89 by omega,
      show (89 : Nat) = (df.len - 1) - (df.len - 90) by omega,
      readAt_conversionLine_drop df _ _ (by omega) (by omega)]
  have r2 : readAt (baseLine (dropDF (df.len - 90) df))
      ((dropDF (df.len - 90) df).len - 1) = readAt (baseLine df) (df.len - 1) := by
    rw [len_dropDF, show df.len - (df.len - 90) - 1 = 89 by omega,
      show (89 : Nat) = (df.len - 1) - (df.len - 90) by omega,
      readAt_baseLine_drop df _ _ (by omega) (by omega)]
  simp only [trendOkV1, r1, r2]

theorem cloudOkV2_drop (df : DF) (h : 90 ≤ df.len) :
    cloudOkV2 (dropDF (df.len - 90) df) = cloudOkV2 df := by
  have r1 : readAt (span1U (dropDF (df.len - 90) df)) ((dropDF (df.len - 90) df).len - 26)
      = readAt (span1U df) (df.len - 26) := by
    rw [len_dropDF, show df.len - (df.len - 90) - 26 = 64 by omega,
      show (64 : Nat) = (df.len - 26) - (df.len - 90) by omega,
      readAt_span1U_drop df _ _ (by omega) (by omega)]
  have r2 : readAt (span2U (dropDF (df.len - 90) df)) ((dropDF (df.len - 90) df).len - 26)
      = readAt (span2U df) (df.len - 26) := by
    rw [len_dropDF, show df.len - (df.len - 90) - 26 = 64 by omega,
      show (64 : Nat) = (df.len - 26) - (df.len - 90) by omega,
      readAt_span2U_drop df _ _ (by omega) (by omega)]
  simp only [cloudOkV2, r1, r2, closeRead_drop df h]



/-! ### RSI lemmas -/

theorem getElem?_eq_some_readAt (s : Series) (i : Nat) (hi : i < s.length) :
    s[i]? = some (readAt s i) := by
  rw [readAt_eq_getElem, List.getElem?_eq_getElem hi]
  rfl

theorem readAt_rollingMeanS (w : Nat) (s : Series) (i : Nat) (hi : i < s.length) :
    readAt (rollingMeanS w s) i =
      if i + 1 < w then none else (optSum (windowS s i w)).map (· / (w : ℚ)) := by
  rw [readAt_eq_getElem, rollingMeanS, List.getElem?_map, List.getElem?_range hi]
  rfl

theorem optSum_zero (l : List (Option ℚ)) (h : ∀ x ∈ l, x = some 0) :
    optSum l = some 0 := by
  induction l with
  | nil => rfl
  | cons a t ih =>
    rw [optSum, h a (List.mem_cons_self a t),
      ih (fun x hx => h x (List.mem_cons_of_mem a hx))]
    simp [optAdd]

theorem optSum_isSome (l : List (Option ℚ)) (h : ∀ x ∈ l, x.isSome) :
    (optSum l).isSome := by
  induction l with
  | nil => rfl
  | cons a t ih =>
    have ha := h a (List.mem_cons_self a t)
    have ht := ih (fun x hx => h x (List.mem_cons_of_mem a hx))
    rcases Option.isSome_iff_exists.mp ha with ⟨v, rfl⟩
    rcases Option.isSome_iff_exists.mp ht with ⟨u, hu⟩
    rw [optSum, hu]
    rfl

theorem mem_windowS (s : Series) (i w : Nat) (x : Option ℚ) (hw : w ≤ i + 1)
    (hx : x ∈ windowS s i w) :
    ∃ j, i + 1 - w ≤ j ∧ j ≤ i ∧ s[j]? = some x := by
  rcases List.mem_iff_getElem?.mp hx with ⟨p, hp⟩
  have hplen : p < (windowS s i w).length := by
    by_contra hc
    rw [List.getElem?_eq_none (by omega)] at hp
    exact Option.noConfusion hp
  have hpw : p < w := by
    have := List.length_take_le w (s.drop (i + 1 - w))
    rw [windowS] at hplen
    omega
  refine ⟨i + 1 - w + p, by omega, by omega, ?_⟩
  rw [windowS, List.getElem?_take_of_lt hpw, List.getElem?_drop] at hp
  exact hp

theorem priceDiff_getElem (xs : List ℚ) (j : Nat) (hj : j < xs.length) :
    (priceDiff xs)[j]? =
      some (if j = 0 then none else some (xs.getD j 0 - xs.getD (j - 1) 0)) := by
  rw [priceDiff, List.getElem?_map, List.getElem?_range hj]
  rfl

theorem length_priceDiff (xs : List ℚ) : (priceDiff xs).length = xs.length := by
  simp [priceDiff]

theorem length_rollingMeanS (w : Nat) (s : Series) : (rollingMeanS w s).length = s.length := by
  simp [rollingMeanS]

/-! ### Claims -/

set_option maxRecDepth 4000 in
/-- Claim C1, counterexample: on the 78-bar series `c1DF` the two cloud
representations do not yield identical leading-span values at the last
bar — the strict variant's `iloc[-26]` reads of the undisplaced spans
and the penetration variant's forward-shifted spans at the last bar are
all defined yet differ (10 versus 54 for both spans), so the claimed
equivalence fails as stated. -/
theorem claim1_counterexample :
    ¬ (((getCol (calculateIchimokuV1 c1DF) "ITS_26").map fun s => iloc s (-1))
          = some (iloc (calculateIchimokuV2 c1DF).leading_span1 (-26)) ∧
        ((getCol (calculateIchimokuV1 c1DF) "IKS_52").map fun s => iloc s (-1))
          = some (iloc (calculateIchimokuV2 c1DF).leading_span2 (-26))) := by
  with_unfolding_all decide

/-- Claim C1, amended: the two representations are offset by one bar —
the forward-shifted leading spans read at the last bar
(`materialised.iloc[-1]`, as in the cloud-penetration variant) equal the
undisplaced spans indexed 27 bars into the past (`iloc[-27]`), not 26;
the `iloc[-26]` read used by the strict-below-cloud variant is the cloud
value one bar past the last bar. -/
theorem claim1_offset_by_one (df : DF) (h : 27 ≤ df.len) :
    ((getCol (calculateIchimokuV1 df) "ITS_26").map fun s => iloc s (-1))
        = some (iloc (calculateIchimokuV2 df).leading_span1 (-27)) ∧
    ((getCol (calculateIchimokuV1 df) "IKS_52").map fun s => iloc s (-1))
        = some (iloc (calculateIchimokuV2 df).leading_span2 (-27)) := by
  have e1 : (calculateIchimokuV2 df).leading_span1 = span1U df := rfl
  have e2 : (calculateIchimokuV2 df).leading_span2 = span2U df := rfl
  constructor
  · rw [getColV1_ITS, Option.map_some', e1,
      iloc_neg_one _ (by rw [length_shiftF, length_span1U]; omega),
      iloc_neg_27 _ (by rw [length_span1U]; omega),
      length_shiftF, length_span1U,
      readAt_shiftF _ _ _ (by rw [length_span1U]; omega),
      if_neg (by omega),
      show df.len - 1 - 26 = df.len - 27 by omega]
  · rw [getColV1_IKS, Option.map_some', e2,
      iloc_neg_one _ (by rw [length_shiftF, length_span2U]; omega),
      iloc_neg_27 _ (by rw [length_span2U]; omega),
      length_shiftF, length_span2U,
      readAt_shiftF _ _ _ (by rw [length_span2U]; omega),
      if_neg (by omega),
      show df.len - 1 - 26 = df.len - 27 by omega]

/-- Claim C1 witness: the amended offset equation instantiated on the
concrete 78-bar series. -/
theorem claim1_witness :
    ((getCol (calculateIchimokuV1 c1DF) "ITS_26").map fun s => iloc s (-1))
        = some (iloc (calculateIchimokuV2 c1DF).leading_span1 (-27)) ∧
    ((getCol (calculateIchimokuV1 c1DF) "IKS_52").map fun s => iloc s (-1))
        = some (iloc (calculateIchimokuV2 c1DF).leading_span2 (-27)) :=
  claim1_offset_by_one c1DF (by decide)

set_option maxRecDepth 40000 in
/-- Claim C2: the cloud-penetration variant's 60-bar minimum is *not*
enough for every value its predicates read — on the 60-bar `demoDF` the
length gate passes and the evaluator even accepts the instrument, yet
the forward-shifted 52-period leading span it reads at the last bar is
the NaN sentinel (78 = 52 + 26 bars would be required), contradicting
the claim that the threshold covers every lookback plus displacement. -/
theorem claim2_threshold_gap :
    demoDF.len = 60 ∧ checkConditionsV1 demoDF = some true ∧
    ((getCol (calculateIchimokuV1 demoDF) "IKS_52").map fun s => iloc s (-1))
      = some (some none) := by
  with_unfolding_all decide

set_option maxRecDepth 40000 in
/-- Claim C3: in the cloud-penetration variant an undefined indicator
value does *not* make the predicate fail — on the 60-bar `demo3DF` the
52-period leading span consulted at the last bar is the NaN sentinel,
`max`/`min`/comparisons against NaN silently reduce the cloud to span 1
alone, and the evaluator returns `true`. -/
theorem claim3_nan_not_propagated :
    ((getCol (calculateIchimokuV1 demo3DF) "IKS_52").map fun s => iloc s (-1))
      = some (some none) ∧
    checkConditionsV1 demo3DF = some true := by
  with_unfolding_all decide

/-- Claim C6: a series shorter than the variant's minimum length (60
bars for the cloud-penetration variant, 78 for the strict-below-cloud
variant) is rejected immediately — the evaluator returns `some false`,
the `some` witnessing that no exception escapes. -/
theorem claim6_short_series_rejected :
    (∀ df : DF, df.len < 60 → checkConditionsV1 df = some false) ∧
    (∀ df : DF, df.len < 78 → checkConditionsV2 df = some false) := by
  constructor
  · intro df h
    rw [checkConditionsV1, if_pos h]
  · intro df h
    rw [checkConditionsV2, if_pos h]

/-- Claim C6 witness: the empty frame is rejected by both variants. -/
theorem claim6_witness :
    checkConditionsV1 ⟨[], []⟩ = some false ∧ checkConditionsV2 ⟨[], []⟩ = some false :=
  ⟨claim6_short_series_rejected.1 ⟨[], []⟩ (by decide),
    claim6_short_series_rejected.2 ⟨[], []⟩ (by decide)⟩

set_option maxRecDepth 4000 in
/-- Claim C8, counterexample: the cloud-penetration variant's
`calculate_ichimoku` does *not* leave the caller's frame unchanged — the
in-place column assignments (call-by-sharing) give the caller a frame
with five new indicator columns, as the one-bar frame `c8DF` shows. -/
theorem claim8_counterexample : ¬ (calculateIchimokuV1 c8DF = c8DF) := by
  with_unfolding_all decide

/-- Claim C8, amended: both `calculate_ichimoku` are deterministic
functions of the input frame; the strict-below-cloud variant returns its
dict without touching the frame (by construction), while the
cloud-penetration variant preserves every OHLCV row unchanged but adds
exactly the five indicator columns `ISA_9, ISB_26, ITS_26, IKS_52,
ILS_26` to the caller's frame. -/
theorem claim8_frame_effect (df : DF) (h : df.extra = []) :
    (calculateIchimokuV1 df).rows = df.rows ∧
    (calculateIchimokuV1 df).extra.map Prod.fst =
      ["ISA_9", "ISB_26", "ITS_26", "IKS_52", "ILS_26"] := by
  refine ⟨rfl, ?_⟩
  show (setCol (setCol (setCol (setCol (setCol df.extra
      "ISA_9" (conversionLine df)) "ISB_26" (baseLine df)) "ITS_26" (shiftF 26 (span1U df)))
      "IKS_52" (shiftF 26 (span2U df))) "ILS_26" (shiftB 26 (df.close.map some))).map
      Prod.fst = _
  rw [h]
  simp [setCol]

/-- Claim C8 witness: the amended statement on the one-bar frame. -/
theorem claim8_witness :
    (calculateIchimokuV1 c8DF).rows = c8DF.rows ∧
    (calculateIchimokuV1 c8DF).extra.map Prod.fst =
      ["ISA_9", "ISB_26", "ITS_26", "IKS_52", "ILS_26"] :=
  claim8_frame_effect c8DF rfl

/-- Claim C10: with at least 90 bars of history, each variant's
evaluator returns the same boolean on the full series as on the series
restricted to its last 90 bars: every window and displaced read it
performs lies inside the trailing 90 bars. -/
theorem claim10_trailing_90 (df : DF) (h : 90 ≤ df.len) :
    checkConditionsV1 df = checkConditionsV1 (dropDF (df.len - 90) df) ∧
    checkConditionsV2 df = checkConditionsV2 (dropDF (df.len - 90) df) := by
  constructor
  · rw [checkConditionsV1_char df (by omega),
      checkConditionsV1_char (dropDF (df.len - 90) df) (by rw [len_dropDF]; omega),
      volumeRegime_drop df h, goldenCross_drop90 df h, cloudOkV1_drop df h,
      trendOkV1_drop df h]
  · rw [checkConditionsV2_char df (by omega),
      checkConditionsV2_char (dropDF (df.len - 90) df) (by rw [len_dropDF]; omega),
      volumeRegime_drop df h, goldenCross_drop90 df h, cloudOkV2_drop df h]

/-- Claim C10 witness: the trailing-90 equality on a concrete 95-bar
frame. -/
theorem claim10_witness :
    checkConditionsV1 demo10DF = checkConditionsV1 (dropDF (demo10DF.len - 90) demo10DF) ∧
    checkConditionsV2 demo10DF = checkConditionsV2 (dropDF (demo10DF.len - 90) demo10DF) :=
  claim10_trailing_90 demo10DF (by decide)

theorem analyzeStock_of_body_none (fetch : StockInfo → Option DF) (s : StockInfo)
    (h : analyzeStockBody fetch s = none) : analyzeStock fetch s = none := by
  rw [analyzeStock, h]

/-- Claim C7: a raised exception anywhere in `analyze_stock`'s body
(fetch included) is caught and becomes "no match", and instruments whose
fetch raises contribute nothing to `run_filter`'s result — the batch
completes with exactly the matches of the instruments whose fetch
succeeded. -/
theorem claim7_failure_isolation :
    (∀ (fetch : StockInfo → Option DF) (s : StockInfo),
      analyzeStockBody fetch s = none → analyzeStock fetch s = none) ∧
    (∀ (fetch : StockInfo → Option DF) (stocks : List StockInfo),
      runFilter fetch stocks =
        runFilter fetch (stocks.filter fun s => (fetch s).isSome)) := by
  constructor
  · exact analyzeStock_of_body_none
  · intro fetch stocks
    induction stocks with
    | nil => rfl
    | cons s t ih =>
      rw [List.filter_cons]
      by_cases hf : (fetch s).isSome
      · rw [if_pos (by simpa using hf)]
        rw [runFilter, runFilter, List.map_cons, List.map_cons,
          List.filterMap_cons, List.filterMap_cons]
        have ih2 : (List.map (analyzeStock fetch) t).filterMap id =
            (List.map (analyzeStock fetch)
              (List.filter (fun s => (fetch s).isSome) t)).filterMap id := ih
        rw [ih2]
      · rw [if_neg (by simpa using hf)]
        have hnone : analyzeStock fetch s = none := by
          apply analyzeStock_of_body_none
          rw [analyzeStockBody]
          rw [Option.not_isSome_iff_eq_none] at hf
          rw [hf]
        rw [runFilter, List.map_cons, List.filterMap_cons, hnone]
        exact ih

set_option maxRecDepth 40000 in
/-- Claim C7 witness: with three instruments whose middle fetch raises,
the failed instrument yields no match and the run returns exactly the
matches of the first and third. -/
theorem claim7_witness :
    analyzeStockBody fetch3 stockB = none ∧
    analyzeStock fetch3 stockB = none ∧
    runFilter fetch3 [stockA, stockB, stockC] =
      [("Alpha", "A", (48 / 5 : ℚ)), ("Gamma", "C", (48 / 5 : ℚ))] :=
  ⟨rfl, claim7_failure_isolation.1 fetch3 stockB rfl, by with_unfolding_all decide⟩

theorem foldl_max_init_le (t : List ℚ) (a : ℚ) : a ≤ t.foldl max a := by
  induction t generalizing a with
  | nil => exact le_refl a
  | cons b t ih =>
    rw [List.foldl_cons]
    exact le_trans (le_max_left a b) (ih (max a b))

theorem le_foldl_max (t : List ℚ) (a x : ℚ) (hx : x ∈ t) : x ≤ t.foldl max a := by
  induction t generalizing a with
  | nil => simp at hx
  | cons b t ih =>
    rw [List.foldl_cons]
    rcases List.mem_cons.mp hx with rfl | hx2
    · exact le_trans (le_max_right a x) (foldl_max_init_le t (max a x))
    · exact ih (max a b) hx2

theorem foldl_max_mem (t : List ℚ) (a : ℚ) : t.foldl max a ∈ a :: t := by
  induction t generalizing a with
  | nil => exact List.mem_singleton.mpr rfl
  | cons b t ih =>
    rw [List.foldl_cons]
    rcases List.mem_cons.mp (ih (max a b)) with he | hmem
    · rw [he]
      rcases max_choice a b with h1 | h1
      · rw [h1]
        exact List.mem_cons_self _ _
      · rw [h1]
        exact List.mem_cons_of_mem _ (List.mem_cons_self _ _)
    · exact List.mem_cons_of_mem _ (List.mem_cons_of_mem _ hmem)

set_option maxRecDepth 100000 in
/-- Claim C5: the volume-regime screen passes exactly when the mean of
the trailing 90 volumes is strictly below 1,000,000 and some volume in
that window reaches 1,000,000; the three specified concrete series
behave as the claim lists (mean 900,000 / max 1,500,000 passes; mean
1,100,000 fails; mean 500,000 / max 800,000 fails). -/
theorem claim5_volume_regime :
    (∀ vol : List ℚ, vol ≠ [] →
      (volumeRegime vol = true ↔
        (tail 90 vol).sum / ((tail 90 vol).length : ℚ) < 1000000 ∧
        ∃ x ∈ tail 90 vol, (1000000 : ℚ) ≤ x)) ∧
    volumeRegime vol1 = true ∧ volumeRegime vol2 = false ∧
    volumeRegime vol3 = false := by
  refine ⟨?_, by with_unfolding_all decide, by with_unfolding_all decide,
    by with_unfolding_all decide⟩
  intro vol hv
  cases htl : tail 90 vol with
  | nil =>
    exfalso
    apply hv
    have hc := congrArg List.length htl
    rw [tail, List.length_drop, List.length_nil] at hc
    exact List.eq_nil_of_length_eq_zero (by omega)
  | cons a t =>
    rw [volumeRegime, htl, Bool.and_eq_true, seriesMean, if_neg (by simp), seriesMax]
    constructor
    · rintro ⟨h1, h2⟩
      simp only [pyGe, Bool.not_eq_eq_eq_not, Bool.not_true, decide_eq_false_iff_not,
        not_le] at h1
      simp only [pyLt, Bool.not_eq_eq_eq_not, Bool.not_true, decide_eq_false_iff_not,
        not_lt] at h2
      exact ⟨h1, t.foldl max a, foldl_max_mem t a, h2⟩
    · rintro ⟨hmean, x, hxmem, hxge⟩
      constructor
      · simp only [pyGe, Bool.not_eq_eq_eq_not, Bool.not_true, decide_eq_false_iff_not,
          not_le]
        exact hmean
      · simp only [pyLt, Bool.not_eq_eq_eq_not, Bool.not_true, decide_eq_false_iff_not,
          not_lt]
        rcases List.mem_cons.mp hxmem with rfl | hmem
        · exact le_trans hxge (foldl_max_init_le t x)
        · exact le_trans hxge (le_foldl_max t a x hmem)

set_option maxRecDepth 100000 in
/-- Claim C5 witness: the characterisation instantiated on the
mean-900,000 / max-1,500,000 series. -/
theorem claim5_witness :
    volumeRegime vol1 = true ↔
      (tail 90 vol1).sum / ((tail 90 vol1).length : ℚ) < 1000000 ∧
      ∃ x ∈ tail 90 vol1, (1000000 : ℚ) ≤ x :=
  claim5_volume_regime.1 vol1 (by with_unfolding_all decide)

/-- Claim C4: the momentum-crossover predicate passes exactly when some
index `i` in the inclusive window `[len − 7, len − 2]` has the 5-period
close average at or below the 20-period average at `i` and strictly
above it at `i + 1`; a transition outside that window does not count. -/
theorem claim4_crossover_window (close : List ℚ) (h : 60 ≤ close.length) :
    goldenCrossFound close = true ↔
      ∃ i, close.length - 7 ≤ i ∧ i ≤ close.length - 2 ∧
        (window close i 5).sum / 5 ≤ (window close i 20).sum / 20 ∧
        (window close (i + 1) 20).sum / 20 < (window close (i + 1) 5).sum / 5 := by
  unfold goldenCrossFound
  rw [List.any_eq_true]
  constructor
  · rintro ⟨x, hx, hP⟩
    rw [List.mem_range'] at hx
    obtain ⟨j, hj, hxe⟩ := hx
    rw [readAt_rollingMean 5 close x (by omega) (by omega),
      readAt_rollingMean 20 close x (by omega) (by omega),
      readAt_rollingMean 5 close (x + 1) (by omega) (by omega),
      readAt_rollingMean 20 close (x + 1) (by omega) (by omega)] at hP
    simp only [pyLe, pyGt, Bool.and_eq_true, decide_eq_true_eq, gt_iff_lt,
      Nat.cast_ofNat] at hP
    exact ⟨x, by omega, by omega, hP.1, hP.2⟩
  · rintro ⟨i, h1, h2, hle, hlt⟩
    refine ⟨i, List.mem_range'.mpr ⟨i - (close.length - 7), by omega, by omega⟩, ?_⟩
    rw [readAt_rollingMean 5 close i (by omega) (by omega),
      readAt_rollingMean 20 close i (by omega) (by omega),
      readAt_rollingMean 5 close (i + 1) (by omega) (by omega),
      readAt_rollingMean 20 close (i + 1) (by omega) (by omega)]
    simp only [pyLe, pyGt, Bool.and_eq_true, decide_eq_true_eq, gt_iff_lt,
      Nat.cast_ofNat]
    exact ⟨hle, hlt⟩

set_option maxRecDepth 100000 in
/-- Claim C4 witness: a synthetic series with a hand-placed cross at
index 55 (inside the trailing window) passes the predicate, and the same
shape with the cross moved to offset 8 from the end fails. -/
theorem claim4_witness :
    goldenCrossFound gcInsideClose = true ∧ goldenCrossFound gcOutsideClose = false := by
  constructor
  · exact (claim4_crossover_window gcInsideClose (by decide)).mpr
      ⟨55, by decide, by decide, by with_unfolding_all decide, by with_unfolding_all decide⟩
  · with_unfolding_all decide

/-- Claim C9 (spec-modelled): on a strictly increasing price series,
every defined value of `rsi(series, 14)` is exactly 100 — the loss
window is identically zero and the documented edge policy applies, so no
division by zero and no NaN is produced. -/
theorem claim9_rsi_monotone_100 (xs : List ℚ)
    (hmono : ∀ j < xs.length - 1, xs.getD j 0 < xs.getD (j + 1) 0)
    (i : Nat) (h14 : 14 ≤ i) (hi : i < xs.length) :
    readAt (rsi xs 14) i = some 100 := by
  have hgl : ((priceDiff xs).map (Option.map fun d => max d 0)).length = xs.length := by
    rw [List.length_map, length_priceDiff]
  have hll : ((priceDiff xs).map (Option.map fun d => max (-d) 0)).length = xs.length := by
    rw [List.length_map, length_priceDiff]
  have hloss : readAt (rollingMeanS 14
      ((priceDiff xs).map (Option.map fun d => max (-d) 0))) i = some 0 := by
    rw [readAt_rollingMeanS 14 _ i (by rw [hll]; omega), if_neg (by omega),
      optSum_zero _ ?_]
    · simp
    · intro x hx
      obtain ⟨j, hj1, hj2, hjx⟩ := mem_windowS _ i 14 x (by omega) hx
      rw [List.getElem?_map] at hjx
      have hjlen : j < xs.length := by
        by_contra hc
        rw [List.getElem?_eq_none (by rw [length_priceDiff]; omega)] at hjx
        exact Option.noConfusion hjx
      have hj0 : j ≠ 0 := by omega
      rw [priceDiff_getElem xs j hjlen, Option.map_some', if_neg hj0] at hjx
      have hd : 0 < xs.getD j 0 - xs.getD (j - 1) 0 := by
        have hm := hmono (j - 1) (by omega)
        rw [show j - 1 + 1 = j by omega] at hm
        linarith
      have hmx : max (-(xs.getD j 0 - xs.getD (j - 1) 0)) 0 = 0 :=
        max_eq_right (by linarith)
      rw [Option.map_some', hmx] at hjx
      exact (Option.some_inj.mp hjx).symm
  have hgain : ∃ g, readAt (rollingMeanS 14
      ((priceDiff xs).map (Option.map fun d => max d 0))) i = some g := by
    rw [readAt_rollingMeanS 14 _ i (by rw [hgl]; omega), if_neg (by omega)]
    have hs : (optSum (windowS ((priceDiff xs).map (Option.map fun d => max d 0))
        i 14)).isSome := by
      apply optSum_isSome
      intro x hx
      obtain ⟨j, hj1, hj2, hjx⟩ := mem_windowS _ i 14 x (by omega) hx
      rw [List.getElem?_map] at hjx
      have hjlen : j < xs.length := by
        by_contra hc
        rw [List.getElem?_eq_none (by rw [length_priceDiff]; omega)] at hjx
        exact Option.noConfusion hjx
      have hj0 : j ≠ 0 := by omega
      rw [priceDiff_getElem xs j hjlen, Option.map_some', if_neg hj0,
        Option.map_some'] at hjx
      rw [← Option.some_inj.mp hjx]
      rfl
    rcases Option.isSome_iff_exists.mp hs with ⟨v, hv⟩
    exact ⟨v / 14, by rw [hv]; rfl⟩
  obtain ⟨g, hgeq⟩ := hgain
  show readAt (((rollingMeanS 14 ((priceDiff xs).map (Option.map fun d => max d 0))).zipWith
      (fun g l =>
        match g, l with
        | some g, some l => some (if l = 0 then 100 else 100 - 100 / (1 + g / l))
        | _, _ => none)
      (rollingMeanS 14 ((priceDiff xs).map (Option.map fun d => max (-d) 0))))) i = some 100
  rw [readAt_eq_getElem, List.getElem?_zipWith,
    getElem?_eq_some_readAt _ i (by rw [length_rollingMeanS, hgl]; omega),
    getElem?_eq_some_readAt _ i (by rw [length_rollingMeanS, hll]; omega),
    hgeq, hloss]
  simp

/-- Claim C9 witness: the RSI of the strictly increasing 16-bar series
is 100 at the first defined index. -/
theorem claim9_witness : readAt (rsi rsiClose 14) 14 = some 100 :=
  claim9_rsi_monotone_100 rsiClose (by with_unfolding_all decide) 14 (by decide) (by decide)

end StockFilter
